import Mathlib

/-
Verification of the MFC-Calculator-Tool computational core.

The program (a React component) contains three pure computations:
`calculateMFCValues` (lines 83-139), `generateCSV` (lines 149-192) and
`getTotalTime` (lines 194-199) of the main source file.  They are embedded
below over exact rationals; JavaScript `toFixed` and template-literal number
rendering are modelled explicitly, and a small IEEE-style value type captures
JavaScript division by zero where exact rationals cannot.
-/

set_option maxHeartbeats 1000000

namespace MFC

/-- Pads the decimal rendering of `m` with leading zeros to width `d`,
mirroring the fixed-width fractional part of JavaScript `Number.toFixed`. -/
def padZeros (d : ℕ) (m : ℕ) : String :=
  let s := toString m
  String.mk (List.replicate (d - s.length) '0') ++ s

/-- JavaScript `Number.prototype.toFixed d` for a nonnegative rational:
the integer `n` with `n / 10^d` closest to the value is chosen, ties going to
the larger `n`, and rendered with exactly `d` fractional digits. -/
def toFixedPos (d : ℕ) (q : ℚ) : String :=
  let n : ℕ := (⌊q * (10 : ℚ) ^ d + 1 / 2⌋).toNat
  if d = 0 then toString n
  else toString (n / 10 ^ d) ++ "." ++ padZeros d (n % 10 ^ d)

/-- JavaScript `Number.prototype.toFixed d` over exact rationals: a negative
value is negated, rendered, and prefixed with a minus sign, as the ECMAScript
algorithm prescribes. -/
def toFixed (d : ℕ) (q : ℚ) : String :=
  if q < 0 then "-" ++ toFixedPos d (-q) else toFixedPos d q

/-- Least `k` with `d ∣ 10 ^ k`, searched upward from `k` with the given
fuel; `none` when no such exponent is found. -/
def decExpAux (d : ℕ) : ℕ → ℕ → Option ℕ
  | _, 0 => none
  | k, fuel + 1 => if d ∣ 10 ^ k then some k else decExpAux d (k + 1) fuel

/-- Rendering of a nonnegative rational the way a JavaScript template literal
renders a number, for values with a finite decimal expansion (every value
interpolated into the CSV header metadata is one); rationals without a finite
decimal expansion fall back to a fraction form, a case never reached here. -/
def decStrPos (q : ℚ) : String :=
  match decExpAux q.den 0 64 with
  | some 0 => toString q.num.natAbs
  | some (k + 1) =>
      let n := q.num.natAbs * (10 ^ (k + 1) / q.den)
      toString (n / 10 ^ (k + 1)) ++ "." ++ padZeros (k + 1) (n % 10 ^ (k + 1))
  | none => toString q.num.natAbs ++ "/" ++ toString q.den

/-- JavaScript template-literal rendering of a number, signs included. -/
def decStr (q : ℚ) : String :=
  if q < 0 then "-" ++ decStrPos (-q) else decStrPos q

/-- The `inputs` state record: totalFlow (SLPM), targetHumidity (%),
ch2oSourceConc (ppm), concentrations (ppb, ordered), useDesmosMath toggle. -/
structure InputParameters where
  totalFlow : ℚ
  targetHumidity : ℚ
  ch2oSourceConc : ℚ
  concentrations : List ℚ
  useDesmosMath : Bool
deriving DecidableEq

/-- The `calibration` state record (humidityOffset and humidityScaleFactor are
present in the source but unused by the computation). -/
structure CalibrationConstants where
  humiditySlope : ℚ
  humidityIntercept : ℚ
  humidityOffset : ℚ
  humidityScaleFactor : ℚ
  ch2oCalibrationFactor : ℚ
deriving DecidableEq

/-- The `timings` state record, positive integer minutes. -/
structure TimingParameters where
  baselineDuration : ℕ
  exposureDuration : ℕ
  stabilizationTime : ℕ
deriving DecidableEq

/-- One element of the `mfcC` result list. -/
structure MfcCEntry where
  concentration : ℚ
  flow : ℚ
  flow_standard : ℚ
  flow_desmos : ℚ
deriving DecidableEq

/-- The `results` state record produced by `calculateMFCValues`. -/
structure FlowResult where
  mfcA : ℚ
  mfcB : ℚ
  mfcC : List MfcCEntry
  isValid : Bool
  warnings : List String
deriving DecidableEq

/-- `Math.max` over a list of arguments; `none` models the `-Infinity`
returned for an empty argument list. -/
def mathMax : List ℚ → Option ℚ
  | [] => none
  | x :: xs => some (xs.foldl max x)

/-- The capacity warning template literal of line 128. -/
def mfcCWarning (maxMfcCFlow mfcA : ℚ) : String :=
  "Max MFC C flow (" ++ toFixed 2 maxMfcCFlow ++
    " SLPM) exceeds MFC A capacity (" ++ toFixed 2 mfcA ++ " SLPM)"

/-- The capacity check of lines 126-129: `Math.max` over the mfcC flows
compared against mfcA, pushing the warning when it exceeds. -/
def capacityWarning (flows : List ℚ) (mfcA : ℚ) : List String :=
  match mathMax flows with
  | none => []
  | some maxMfcCFlow =>
    if maxMfcCFlow > mfcA then [mfcCWarning maxMfcCFlow mfcA] else []

/-- Shallow embedding of `calculateMFCValues` (main source, lines 83-139).
The React `setResults` effect is modelled by returning the `FlowResult`;
sequential `warnings.push` calls become list appends in the same order;
`Math.max(...)` over an empty spread is `-Infinity`, so the capacity
comparison is false for an empty concentration list, which the `Option`
match reproduces. -/
def calculateMFCValues (inputs : InputParameters)
    (calibration : CalibrationConstants) : FlowResult :=
  if inputs.totalFlow ≤ 0 ∨ inputs.targetHumidity < 0 ∨ inputs.targetHumidity > 100 then
    { mfcA := 0, mfcB := 0, mfcC := [], isValid := false,
      warnings := ["Invalid input parameters"] }
  else
    let mfcBRaw := calibration.humiditySlope * inputs.targetHumidity +
      calibration.humidityIntercept
    let mfcB := if mfcBRaw < 0 then 0 else mfcBRaw
    let mfcCValues := inputs.concentrations.map fun conc =>
      let flow_standard := conc / 1000 * inputs.totalFlow / inputs.ch2oSourceConc
      let flow_desmos := flow_standard * calibration.ch2oCalibrationFactor
      ({ concentration := conc,
         flow := if inputs.useDesmosMath then flow_desmos else flow_standard,
         flow_standard := flow_standard,
         flow_desmos := flow_desmos } : MfcCEntry)
    let mfcA := inputs.totalFlow - mfcB
    let warnings : List String :=
      (if inputs.targetHumidity > 80 then ["Humidity >80% may cause condensation"] else []) ++
      (if inputs.targetHumidity < 10 then ["Humidity <10% may be difficult to achieve"] else []) ++
      capacityWarning (mfcCValues.map MfcCEntry.flow) mfcA
    { mfcA := mfcA, mfcB := mfcB, mfcC := mfcCValues, isValid := true,
      warnings := warnings }

/-- One CSV data line `time,a,b,c` with trailing newline. -/
def csvLine (t : ℕ) (a b c : String) : String :=
  toString t ++ "," ++ a ++ "," ++ b ++ "," ++ c ++ "\n"

/-- The `mfcC.forEach` loop of `generateCSV` (lines 173-183), threading the
mutable `currentTime` cursor: for each entry a baseline line is emitted at the
current cursor (no advance), then the exposure line, then the cursor advances
by `expSec`. Returns the accumulated text and the final cursor. -/
def csvConcRows (mfcA mfcB : ℚ) (expSec : ℕ) : List MfcCEntry → ℕ → String × ℕ
  | [], t => ("", t)
  | e :: rest, t =>
    let base := csvLine t (toFixed 2 mfcA) (toFixed 2 mfcB) "0"
    let exposure := csvLine t (toFixed 2 (mfcA - e.flow)) (toFixed 2 mfcB) (toFixed 9 e.flow)
    let r := csvConcRows mfcA mfcB expSec rest (t + expSec)
    (base ++ exposure ++ r.1, r.2)

/-- Shallow embedding of `generateCSV` (lines 149-192).  The call
`new Date().toISOString()` is an effect and is passed in as `nowIso`. -/
def generateCSV (inputs : InputParameters) (timings : TimingParameters)
    (results : FlowResult) (nowIso : String) : String :=
  if !results.isValid then "" else
    let header :=
      "# Alicat SSCM MFC Configuration\n" ++
      "# Target Humidity: " ++ decStr inputs.targetHumidity ++ "% RH\n" ++
      "# Total Flow: " ++ decStr inputs.totalFlow ++ " SLPM\n" ++
      "# CH2O Source Concentration: " ++ decStr inputs.ch2oSourceConc ++ " ppm\n" ++
      "# Generated: " ++ nowIso ++ "\n" ++
      "#\n" ++
      "# Protocol: Baseline -> Concentration Steps -> Shutdown\n" ++
      "# MFC A: Dry air, MFC B: Humid air, MFC C: CH2O source\n" ++
      "#\n" ++
      "Time,MFC A,MFC B,MFC C\n"
    let firstBaseline := csvLine 0 (toFixed 2 results.mfcA) (toFixed 2 results.mfcB) "0"
    let mid := csvConcRows results.mfcA results.mfcB (timings.exposureDuration * 60)
      results.mfcC (timings.baselineDuration * 60)
    let finalBaseline := csvLine mid.2 (toFixed 2 results.mfcA) (toFixed 2 results.mfcB) "0"
    let shutdown := csvLine mid.2 "0" "0" "0"
    header ++ firstBaseline ++ mid.1 ++ finalBaseline ++ shutdown

/-- Shallow embedding of `getTotalTime` (lines 194-199): total experiment
minutes converted to hours with one fractional digit, or `"0"` with no
concentration steps. -/
def getTotalTime (inputs : InputParameters) (timings : TimingParameters) : String :=
  let numConcentrations := inputs.concentrations.length
  if numConcentrations = 0 then "0"
  else
    let totalMinutes : ℚ := (numConcentrations : ℚ) * (timings.baselineDuration : ℚ) +
      (numConcentrations : ℚ) * (timings.exposureDuration : ℚ) +
      (timings.exposureDuration : ℚ)
    toFixed 1 (totalMinutes / 60)

/-- IEEE-754-style value for modelling JavaScript arithmetic where exact
rationals cannot express the result: a finite value, an infinity, or NaN. -/
inductive JSVal where
  | fin : ℚ → JSVal
  | posInf : JSVal
  | negInf : JSVal
  | nan : JSVal
deriving DecidableEq

namespace JSVal

/-- JavaScript division on `JSVal` (negative-zero effects aside; no operand
here is an exact negative zero). -/
def div : JSVal → JSVal → JSVal
  | nan, _ => nan
  | _, nan => nan
  | fin a, fin b =>
    if b = 0 then (if 0 < a then posInf else if a < 0 then negInf else nan)
    else fin (a / b)
  | fin _, posInf => fin 0
  | fin _, negInf => fin 0
  | posInf, fin b => if 0 ≤ b then posInf else negInf
  | negInf, fin b => if 0 ≤ b then negInf else posInf
  | _, _ => nan

/-- JavaScript multiplication on `JSVal`. -/
def mul : JSVal → JSVal → JSVal
  | nan, _ => nan
  | _, nan => nan
  | fin a, fin b => fin (a * b)
  | fin a, posInf => if 0 < a then posInf else if a < 0 then negInf else nan
  | fin a, negInf => if 0 < a then negInf else if a < 0 then posInf else nan
  | posInf, fin b => if 0 < b then posInf else if b < 0 then negInf else nan
  | negInf, fin b => if 0 < b then negInf else if b < 0 then posInf else nan
  | posInf, posInf => posInf
  | negInf, negInf => posInf
  | posInf, negInf => negInf
  | negInf, posInf => negInf

end JSVal

/-- The dilution expression `(conc / 1000) * totalFlow / ch2oSourceConc`
(line 105) evaluated under JavaScript number semantics, capturing the
unguarded division when `ch2oSourceConc` is zero. -/
def flowStandardJS (conc totalFlow ch2oSourceConc : ℚ) : JSVal :=
  (((JSVal.fin conc).div (JSVal.fin 1000)).mul (JSVal.fin totalFlow)).div
    (JSVal.fin ch2oSourceConc)

/-- One CSV data row before `toFixed` rendering: time in seconds and the
exact rational values of the three channels. -/
structure TimelineRow where
  time : ℕ
  chanA : ℚ
  chanB : ℚ
  chanC : ℚ
deriving DecidableEq

/-- Unformatted counterpart of `csvConcRows`: the exact channel values of the
rows emitted by the `mfcC.forEach` loop of `generateCSV` (lines 173-183),
with the same cursor algorithm. -/
def timelineConcRows (mfcA mfcB : ℚ) (expSec : ℕ) :
    List MfcCEntry → ℕ → List TimelineRow × ℕ
  | [], t => ([], t)
  | e :: rest, t =>
    let r := timelineConcRows mfcA mfcB expSec rest (t + expSec)
    (⟨t, mfcA, mfcB, 0⟩ :: ⟨t, mfcA - e.flow, mfcB, e.flow⟩ :: r.1, r.2)

/-- The full unformatted data-row timeline of `generateCSV` (lines 166-189):
initial baseline, the per-concentration rows, final baseline, shutdown. -/
def timelineRows (timings : TimingParameters) (results : FlowResult) :
    List TimelineRow :=
  let mid := timelineConcRows results.mfcA results.mfcB
    (timings.exposureDuration * 60) results.mfcC (timings.baselineDuration * 60)
  ⟨0, results.mfcA, results.mfcB, 0⟩ ::
    (mid.1 ++ [⟨mid.2, results.mfcA, results.mfcB, 0⟩, ⟨mid.2, 0, 0, 0⟩])

/-- Claim-side description of the CSV data rows (the part after the
`Time,MFC A,MFC B,MFC C` header row): one initial baseline row at time 0; for
the `i`-th concentration entry a baseline row and an exposure row, both at
time `baselineDuration*60 + i*(exposureDuration*60)`; then a final baseline
row and a shutdown row at the common final cursor. -/
def specBodyRows (mfcA mfcB : ℚ) (baselineDuration exposureDuration : ℕ)
    (entries : List MfcCEntry) : List String :=
  [csvLine 0 (toFixed 2 mfcA) (toFixed 2 mfcB) "0"] ++
  (entries.enum.flatMap fun p =>
    [csvLine (baselineDuration * 60 + p.1 * (exposureDuration * 60))
       (toFixed 2 mfcA) (toFixed 2 mfcB) "0",
     csvLine (baselineDuration * 60 + p.1 * (exposureDuration * 60))
       (toFixed 2 (mfcA - p.2.flow)) (toFixed 2 mfcB) (toFixed 9 p.2.flow)]) ++
  [csvLine (baselineDuration * 60 + entries.length * (exposureDuration * 60))
      (toFixed 2 mfcA) (toFixed 2 mfcB) "0",
   csvLine (baselineDuration * 60 + entries.length * (exposureDuration * 60)) "0" "0" "0"]

/-- The CSV metadata header of `generateCSV` (lines 155-164), ending with the
column-header row. -/
def csvHeaderText (inputs : InputParameters) (nowIso : String) : String :=
  "# Alicat SSCM MFC Configuration\n" ++
  "# Target Humidity: " ++ decStr inputs.targetHumidity ++ "% RH\n" ++
  "# Total Flow: " ++ decStr inputs.totalFlow ++ " SLPM\n" ++
  "# CH2O Source Concentration: " ++ decStr inputs.ch2oSourceConc ++ " ppm\n" ++
  "# Generated: " ++ nowIso ++ "\n" ++
  "#\n" ++
  "# Protocol: Baseline -> Concentration Steps -> Shutdown\n" ++
  "# MFC A: Dry air, MFC B: Humid air, MFC C: CH2O source\n" ++
  "#\n" ++
  "Time,MFC A,MFC B,MFC C\n"

/-- Concatenation of a list of strings, used to state the CSV body shape. -/
def joinAll (l : List String) : String :=
  l.foldr (fun a b => a ++ b) ""

theorem joinAll_nil : joinAll [] = "" := rfl

theorem joinAll_cons (x : String) (l : List String) :
    joinAll (x :: l) = x ++ joinAll l := rfl

theorem joinAll_append (l1 l2 : List String) :
    joinAll (l1 ++ l2) = joinAll l1 ++ joinAll l2 := by
  induction l1 with
  | nil => simp [joinAll]
  | cons x l ih =>
      simp only [List.cons_append, joinAll_cons, ih, String.append_assoc]

/-- The default UI state of the application: the initial `inputs` record. -/
def inputs0 : InputParameters :=
  { totalFlow := 500, targetHumidity := 35, ch2oSourceConc := 5.35,
    concentrations := [50, 100, 200], useDesmosMath := true }

/-- The fixed `calibration` record of the application. -/
def calib0 : CalibrationConstants :=
  { humiditySlope := 6.0785, humidityIntercept := -32.458, humidityOffset := 0,
    humidityScaleFactor := 1, ch2oCalibrationFactor := 1 }

/-- The default `timings` record of the application. -/
def timings0 : TimingParameters :=
  { baselineDuration := 30, exposureDuration := 30, stabilizationTime := 5 }

/-- An input rejected by validation: `totalFlow = 0`. -/
def inputsBad : InputParameters :=
  { totalFlow := 0, targetHumidity := 35, ch2oSourceConc := 5.35,
    concentrations := [50], useDesmosMath := true }

/-- An input with a negative source concentration, otherwise valid. -/
def inputsNegSrc : InputParameters :=
  { totalFlow := 500, targetHumidity := 35, ch2oSourceConc := -5.35,
    concentrations := [50, 100, 200], useDesmosMath := true }

/-- An input with no concentration steps, otherwise valid. -/
def inputsEmpty : InputParameters :=
  { totalFlow := 500, targetHumidity := 35, ch2oSourceConc := 5.35,
    concentrations := [], useDesmosMath := true }

/-- An invalid `FlowResult`, as produced by the validation branch. -/
def resultInvalid : FlowResult :=
  { mfcA := 0, mfcB := 0, mfcC := [], isValid := false,
    warnings := ["Invalid input parameters"] }

theorem toFixed_eval (d : ℕ) (q : ℚ) (n : ℕ) (h0 : 0 ≤ q)
    (h : ⌊q * (10 : ℚ) ^ d + 1 / 2⌋ = (n : ℤ)) :
    toFixed d q =
      if d = 0 then toString n
      else toString (n / 10 ^ d) ++ "." ++ padZeros d (n % 10 ^ d) := by
  rw [toFixed, if_neg (not_lt.mpr h0), toFixedPos, h]
  simp

theorem notInvalidCond {inputs : InputParameters} (h1 : 0 < inputs.totalFlow)
    (h2 : 0 ≤ inputs.targetHumidity) (h3 : inputs.targetHumidity ≤ 100) :
    ¬(inputs.totalFlow ≤ 0 ∨ inputs.targetHumidity < 0 ∨
      inputs.targetHumidity > 100) := by
  push_neg
  exact ⟨h1, h2, h3⟩

theorem calculateMFCValues_of_invalid (inputs : InputParameters)
    (calibration : CalibrationConstants)
    (h : inputs.totalFlow ≤ 0 ∨ inputs.targetHumidity < 0 ∨
      inputs.targetHumidity > 100) :
    calculateMFCValues inputs calibration =
      { mfcA := 0, mfcB := 0, mfcC := [], isValid := false,
        warnings := ["Invalid input parameters"] } := by
  rw [calculateMFCValues, if_pos h]

theorem isValid_of_valid (inputs : InputParameters)
    (calibration : CalibrationConstants) (h1 : 0 < inputs.totalFlow)
    (h2 : 0 ≤ inputs.targetHumidity) (h3 : inputs.targetHumidity ≤ 100) :
    (calculateMFCValues inputs calibration).isValid = true := by
  rw [calculateMFCValues, if_neg (notInvalidCond h1 h2 h3)]

theorem mfcB_of_valid (inputs : InputParameters)
    (calibration : CalibrationConstants) (h1 : 0 < inputs.totalFlow)
    (h2 : 0 ≤ inputs.targetHumidity) (h3 : inputs.targetHumidity ≤ 100) :
    (calculateMFCValues inputs calibration).mfcB =
      if calibration.humiditySlope * inputs.targetHumidity +
          calibration.humidityIntercept < 0 then 0
      else calibration.humiditySlope * inputs.targetHumidity +
          calibration.humidityIntercept := by
  rw [calculateMFCValues, if_neg (notInvalidCond h1 h2 h3)]

theorem mfcA_of_valid (inputs : InputParameters)
    (calibration : CalibrationConstants) (h1 : 0 < inputs.totalFlow)
    (h2 : 0 ≤ inputs.targetHumidity) (h3 : inputs.targetHumidity ≤ 100) :
    (calculateMFCValues inputs calibration).mfcA =
      inputs.totalFlow -
        (if calibration.humiditySlope * inputs.targetHumidity +
            calibration.humidityIntercept < 0 then 0
         else calibration.humiditySlope * inputs.targetHumidity +
            calibration.humidityIntercept) := by
  rw [calculateMFCValues, if_neg (notInvalidCond h1 h2 h3)]

theorem mfcC_of_valid (inputs : InputParameters)
    (calibration : CalibrationConstants) (h1 : 0 < inputs.totalFlow)
    (h2 : 0 ≤ inputs.targetHumidity) (h3 : inputs.targetHumidity ≤ 100) :
    (calculateMFCValues inputs calibration).mfcC =
      inputs.concentrations.map fun conc =>
        ({ concentration := conc,
           flow := if inputs.useDesmosMath then
               conc / 1000 * inputs.totalFlow / inputs.ch2oSourceConc *
                 calibration.ch2oCalibrationFactor
             else conc / 1000 * inputs.totalFlow / inputs.ch2oSourceConc,
           flow_standard := conc / 1000 * inputs.totalFlow / inputs.ch2oSourceConc,
           flow_desmos := conc / 1000 * inputs.totalFlow / inputs.ch2oSourceConc *
             calibration.ch2oCalibrationFactor } : MfcCEntry) := by
  rw [calculateMFCValues, if_neg (notInvalidCond h1 h2 h3)]

theorem warnings_of_valid (inputs : InputParameters)
    (calibration : CalibrationConstants) (h1 : 0 < inputs.totalFlow)
    (h2 : 0 ≤ inputs.targetHumidity) (h3 : inputs.targetHumidity ≤ 100) :
    (calculateMFCValues inputs calibration).warnings =
      (if inputs.targetHumidity > 80 then
          ["Humidity >80% may cause condensation"] else []) ++
      (if inputs.targetHumidity < 10 then
          ["Humidity <10% may be difficult to achieve"] else []) ++
      capacityWarning (((calculateMFCValues inputs calibration).mfcC).map
          MfcCEntry.flow)
        ((calculateMFCValues inputs calibration).mfcA) := by
  conv_lhs => rw [calculateMFCValues, if_neg (notInvalidCond h1 h2 h3)]
  rw [mfcC_of_valid inputs calibration h1 h2 h3,
    mfcA_of_valid inputs calibration h1 h2 h3]

/-- C1: for every input with totalFlow ≤ 0 or targetHumidity outside [0,100],
`calculateMFCValues` returns the `FlowResult` with isValid false, mfcA = 0,
mfcB = 0, empty mfcC and the single warning "Invalid input parameters"; and
`generateCSV` applied to any `FlowResult` with isValid false returns the
empty string. -/
theorem C1_invalid_input_short_circuit (inputs : InputParameters)
    (calibration : CalibrationConstants) (i : InputParameters)
    (t : TimingParameters) (r : FlowResult) (nowIso : String)
    (h : inputs.totalFlow ≤ 0 ∨ inputs.targetHumidity < 0 ∨
      inputs.targetHumidity > 100)
    (hr : r.isValid = false) :
    calculateMFCValues inputs calibration =
      { mfcA := 0, mfcB := 0, mfcC := [], isValid := false,
        warnings := ["Invalid input parameters"] } ∧
    generateCSV i t r nowIso = "" := by
  refine ⟨calculateMFCValues_of_invalid inputs calibration h, ?_⟩
  rw [generateCSV, hr]
  rfl

theorem C1_invalid_input_short_circuit_witness :
    calculateMFCValues inputsBad calib0 =
      { mfcA := 0, mfcB := 0, mfcC := [], isValid := false,
        warnings := ["Invalid input parameters"] } ∧
    generateCSV inputs0 timings0 resultInvalid "2026-01-01T00:00:00.000Z" = "" :=
  C1_invalid_input_short_circuit inputsBad calib0 inputs0 timings0
    resultInvalid "2026-01-01T00:00:00.000Z" (Or.inl (by norm_num [inputsBad]))
    (by decide)

/-- C2: for every valid input, mfcB is the clamped calibration value
max(0, humiditySlope·targetHumidity + humidityIntercept) and
mfcA = totalFlow − mfcB; hence mfcA + mfcB = totalFlow when the unclamped
value is nonnegative, and otherwise mfcB = 0 and mfcA = totalFlow. -/
theorem C2_humidity_flow_split (inputs : InputParameters)
    (calibration : CalibrationConstants) (h1 : 0 < inputs.totalFlow)
    (h2 : 0 ≤ inputs.targetHumidity) (h3 : inputs.targetHumidity ≤ 100) :
    (calculateMFCValues inputs calibration).mfcB =
      max 0 (calibration.humiditySlope * inputs.targetHumidity +
        calibration.humidityIntercept) ∧
    (calculateMFCValues inputs calibration).mfcA =
      inputs.totalFlow - (calculateMFCValues inputs calibration).mfcB ∧
    (0 ≤ calibration.humiditySlope * inputs.targetHumidity +
        calibration.humidityIntercept →
      (calculateMFCValues inputs calibration).mfcA +
        (calculateMFCValues inputs calibration).mfcB = inputs.totalFlow) ∧
    (calibration.humiditySlope * inputs.targetHumidity +
        calibration.humidityIntercept < 0 →
      (calculateMFCValues inputs calibration).mfcB = 0 ∧
      (calculateMFCValues inputs calibration).mfcA = inputs.totalFlow) := by
  have hB := mfcB_of_valid inputs calibration h1 h2 h3
  have hA := mfcA_of_valid inputs calibration h1 h2 h3
  refine ⟨?_, ?_, ?_, ?_⟩
  · rw [hB]
    rcases lt_or_le (calibration.humiditySlope * inputs.targetHumidity +
      calibration.humidityIntercept) 0 with h | h
    · rw [if_pos h, max_eq_left h.le]
    · rw [if_neg (not_lt.mpr h), max_eq_right h]
  · rw [hA, hB]
  · intro h
    rw [hA, hB, if_neg (not_lt.mpr h)]
    ring
  · intro h
    rw [hA, hB, if_pos h, sub_zero]
    exact ⟨rfl, rfl⟩

theorem C2_humidity_flow_split_witness :
    (calculateMFCValues inputs0 calib0).mfcB =
      max 0 (calib0.humiditySlope * inputs0.targetHumidity +
        calib0.humidityIntercept) ∧
    (calculateMFCValues inputs0 calib0).mfcA =
      inputs0.totalFlow - (calculateMFCValues inputs0 calib0).mfcB ∧
    (0 ≤ calib0.humiditySlope * inputs0.targetHumidity +
        calib0.humidityIntercept →
      (calculateMFCValues inputs0 calib0).mfcA +
        (calculateMFCValues inputs0 calib0).mfcB = inputs0.totalFlow) ∧
    (calib0.humiditySlope * inputs0.targetHumidity +
        calib0.humidityIntercept < 0 →
      (calculateMFCValues inputs0 calib0).mfcB = 0 ∧
      (calculateMFCValues inputs0 calib0).mfcA = inputs0.totalFlow) :=
  C2_humidity_flow_split inputs0 calib0 (by norm_num [inputs0])
    (by norm_num [inputs0]) (by norm_num [inputs0])

/-- C3: for every valid input, mfcC is exactly the map over the input
concentrations, in order, of the entry carrying the concentration through
unchanged with flow_standard = (c/1000)·totalFlow/ch2oSourceConc,
flow_desmos = flow_standard·ch2oCalibrationFactor, and flow selected by the
useDesmosMath toggle; in particular the concentrations are neither
deduplicated nor sorted. -/
theorem C3_dilution_entries (inputs : InputParameters)
    (calibration : CalibrationConstants) (h1 : 0 < inputs.totalFlow)
    (h2 : 0 ≤ inputs.targetHumidity) (h3 : inputs.targetHumidity ≤ 100) :
    (calculateMFCValues inputs calibration).mfcC =
      (inputs.concentrations.map fun conc =>
        ({ concentration := conc,
           flow := if inputs.useDesmosMath then
               conc / 1000 * inputs.totalFlow / inputs.ch2oSourceConc *
                 calibration.ch2oCalibrationFactor
             else conc / 1000 * inputs.totalFlow / inputs.ch2oSourceConc,
           flow_standard := conc / 1000 * inputs.totalFlow / inputs.ch2oSourceConc,
           flow_desmos := conc / 1000 * inputs.totalFlow / inputs.ch2oSourceConc *
             calibration.ch2oCalibrationFactor } : MfcCEntry)) ∧
    ((calculateMFCValues inputs calibration).mfcC).map
        (fun e => e.concentration) = inputs.concentrations := by
  have hC := mfcC_of_valid inputs calibration h1 h2 h3
  refine ⟨hC, ?_⟩
  rw [hC, List.map_map]
  exact List.map_id inputs.concentrations

theorem C3_dilution_entries_witness :
    (calculateMFCValues inputs0 calib0).mfcC =
      (inputs0.concentrations.map fun conc =>
        ({ concentration := conc,
           flow := if inputs0.useDesmosMath then
               conc / 1000 * inputs0.totalFlow / inputs0.ch2oSourceConc *
                 calib0.ch2oCalibrationFactor
             else conc / 1000 * inputs0.totalFlow / inputs0.ch2oSourceConc,
           flow_standard := conc / 1000 * inputs0.totalFlow / inputs0.ch2oSourceConc,
           flow_desmos := conc / 1000 * inputs0.totalFlow / inputs0.ch2oSourceConc *
             calib0.ch2oCalibrationFactor } : MfcCEntry)) ∧
    ((calculateMFCValues inputs0 calib0).mfcC).map
        (fun e => e.concentration) = inputs0.concentrations :=
  C3_dilution_entries inputs0 calib0 (by norm_num [inputs0])
    (by norm_num [inputs0]) (by norm_num [inputs0])

/-- C8: the flow computation is a pure function of the input records: two
runs on identical inputs produce identical FlowResults, every field
included. -/
theorem C8_pure_function (i1 i2 : InputParameters)
    (c1 c2 : CalibrationConstants) (hi : i1 = i2) (hc : c1 = c2) :
    calculateMFCValues i1 c1 = calculateMFCValues i2 c2 ∧
    (calculateMFCValues i1 c1).mfcA = (calculateMFCValues i2 c2).mfcA ∧
    (calculateMFCValues i1 c1).mfcB = (calculateMFCValues i2 c2).mfcB ∧
    (calculateMFCValues i1 c1).mfcC = (calculateMFCValues i2 c2).mfcC ∧
    (calculateMFCValues i1 c1).isValid = (calculateMFCValues i2 c2).isValid ∧
    (calculateMFCValues i1 c1).warnings = (calculateMFCValues i2 c2).warnings := by
  subst hi
  subst hc
  exact ⟨rfl, rfl, rfl, rfl, rfl, rfl⟩

theorem C8_pure_function_witness :
    calculateMFCValues inputs0 calib0 = calculateMFCValues inputs0 calib0 ∧
    (calculateMFCValues inputs0 calib0).mfcA =
      (calculateMFCValues inputs0 calib0).mfcA ∧
    (calculateMFCValues inputs0 calib0).mfcB =
      (calculateMFCValues inputs0 calib0).mfcB ∧
    (calculateMFCValues inputs0 calib0).mfcC =
      (calculateMFCValues inputs0 calib0).mfcC ∧
    (calculateMFCValues inputs0 calib0).isValid =
      (calculateMFCValues inputs0 calib0).isValid ∧
    (calculateMFCValues inputs0 calib0).warnings =
      (calculateMFCValues inputs0 calib0).warnings :=
  C8_pure_function inputs0 inputs0 calib0 calib0 rfl rfl

/-- C4: for every valid input the warnings list is exactly the fixed-order
concatenation of the condensation warning (targetHumidity > 80), the
low-humidity warning (targetHumidity < 10), and the capacity warning with
both flows rendered to two decimal places when the maximum mfcC flow exceeds
mfcA; no other warning appears. -/
theorem C4_warning_order (inputs : InputParameters)
    (calibration : CalibrationConstants) (h1 : 0 < inputs.totalFlow)
    (h2 : 0 ≤ inputs.targetHumidity) (h3 : inputs.targetHumidity ≤ 100) :
    (calculateMFCValues inputs calibration).warnings =
      (if inputs.targetHumidity > 80 then
          ["Humidity >80% may cause condensation"] else []) ++
      (if inputs.targetHumidity < 10 then
          ["Humidity <10% may be difficult to achieve"] else []) ++
      (match mathMax (((calculateMFCValues inputs calibration).mfcC).map
          MfcCEntry.flow) with
       | none => []
       | some maxMfcCFlow =>
         if maxMfcCFlow > (calculateMFCValues inputs calibration).mfcA then
           ["Max MFC C flow (" ++ toFixed 2 maxMfcCFlow ++
             " SLPM) exceeds MFC A capacity (" ++
             toFixed 2 ((calculateMFCValues inputs calibration).mfcA) ++ " SLPM)"]
         else []) :=
  warnings_of_valid inputs calibration h1 h2 h3

theorem C4_warning_order_witness :
    (calculateMFCValues inputs0 calib0).warnings =
      (if inputs0.targetHumidity > 80 then
          ["Humidity >80% may cause condensation"] else []) ++
      (if inputs0.targetHumidity < 10 then
          ["Humidity <10% may be difficult to achieve"] else []) ++
      (match mathMax (((calculateMFCValues inputs0 calib0).mfcC).map
          MfcCEntry.flow) with
       | none => []
       | some maxMfcCFlow =>
         if maxMfcCFlow > (calculateMFCValues inputs0 calib0).mfcA then
           ["Max MFC C flow (" ++ toFixed 2 maxMfcCFlow ++
             " SLPM) exceeds MFC A capacity (" ++
             toFixed 2 ((calculateMFCValues inputs0 calib0).mfcA) ++ " SLPM)"]
         else []) :=
  C4_warning_order inputs0 calib0 (by norm_num [inputs0])
    (by norm_num [inputs0]) (by norm_num [inputs0])

/-- C6: `getTotalTime` returns "0" exactly when the concentrations list is
empty, and otherwise (N·baselineDuration + N·exposureDuration +
exposureDuration)/60 hours to one decimal place; at N = 3 with 30-minute
baseline and exposure durations it returns "3.5". -/
theorem C6_total_time (inputs : InputParameters) (timings : TimingParameters) :
    (inputs.concentrations.length = 0 → getTotalTime inputs timings = "0") ∧
    (inputs.concentrations.length ≠ 0 → getTotalTime inputs timings =
      toFixed 1 ((((inputs.concentrations.length : ℚ)) *
          (timings.baselineDuration : ℚ) +
        ((inputs.concentrations.length : ℚ)) * (timings.exposureDuration : ℚ) +
        (timings.exposureDuration : ℚ)) / 60)) ∧
    getTotalTime inputs0 timings0 = "3.5" := by
  refine ⟨?_, ?_, ?_⟩
  · intro h
    rw [getTotalTime, if_pos h]
  · intro h
    rw [getTotalTime, if_neg h]
  · have e1 : getTotalTime inputs0 timings0 =
        toFixed 1 ((((inputs0.concentrations.length : ℚ)) *
            (timings0.baselineDuration : ℚ) +
          ((inputs0.concentrations.length : ℚ)) *
            (timings0.exposureDuration : ℚ) +
          (timings0.exposureDuration : ℚ)) / 60) := by
      rw [getTotalTime, if_neg (by decide)]
    have e2 : ((((inputs0.concentrations.length : ℚ)) *
        (timings0.baselineDuration : ℚ) +
      ((inputs0.concentrations.length : ℚ)) * (timings0.exposureDuration : ℚ) +
      (timings0.exposureDuration : ℚ)) / 60) = 7 / 2 := by
      norm_num [inputs0, timings0]
    rw [e1, e2, toFixed_eval 1 (7 / 2 : ℚ) 35 (by norm_num) (by norm_num)]
    decide

theorem C6_total_time_witness :
    getTotalTime inputsEmpty timings0 = "0" ∧
    getTotalTime inputs0 timings0 =
      toFixed 1 ((((inputs0.concentrations.length : ℚ)) *
          (timings0.baselineDuration : ℚ) +
        ((inputs0.concentrations.length : ℚ)) * (timings0.exposureDuration : ℚ) +
        (timings0.exposureDuration : ℚ)) / 60) ∧
    getTotalTime inputs0 timings0 = "3.5" :=
  ⟨(C6_total_time inputsEmpty timings0).1 (by decide),
   (C6_total_time inputs0 timings0).2.1 (by decide),
   (C6_total_time inputs0 timings0).2.2⟩

/-- C7: validation never looks at ch2oSourceConc: with totalFlow > 0 and
targetHumidity in [0,100] the result is valid whatever ch2oSourceConc is,
every flow_standard is the unguarded quotient by ch2oSourceConc, a negative
source concentration makes the flow of any positive concentration negative,
and under JavaScript number semantics a zero source concentration makes the
same expression evaluate to positive infinity. -/
theorem C7_unguarded_source_division (inputs : InputParameters)
    (calibration : CalibrationConstants) (c : ℚ) (h1 : 0 < inputs.totalFlow)
    (h2 : 0 ≤ inputs.targetHumidity) (h3 : inputs.targetHumidity ≤ 100)
    (hc : 0 < c) :
    (calculateMFCValues inputs calibration).isValid = true ∧
    ((calculateMFCValues inputs calibration).mfcC).map
        (fun e => e.flow_standard) =
      inputs.concentrations.map
        (fun conc => conc / 1000 * inputs.totalFlow / inputs.ch2oSourceConc) ∧
    (inputs.ch2oSourceConc < 0 →
      c / 1000 * inputs.totalFlow / inputs.ch2oSourceConc < 0) ∧
    flowStandardJS c inputs.totalFlow 0 = JSVal.posInf := by
  have hcpos : 0 < c / 1000 * inputs.totalFlow :=
    mul_pos (div_pos hc (by norm_num)) h1
  refine ⟨isValid_of_valid inputs calibration h1 h2 h3, ?_, ?_, ?_⟩
  · rw [mfcC_of_valid inputs calibration h1 h2 h3, List.map_map]
    rfl
  · intro hneg
    exact div_neg_of_pos_of_neg hcpos hneg
  · rw [flowStandardJS, JSVal.div, if_neg (by norm_num : (1000 : ℚ) ≠ 0),
      JSVal.mul, JSVal.div, if_pos rfl, if_pos hcpos]

theorem C7_unguarded_source_division_witness :
    (calculateMFCValues inputsNegSrc calib0).isValid = true ∧
    ((calculateMFCValues inputsNegSrc calib0).mfcC).map
        (fun e => e.flow_standard) =
      inputsNegSrc.concentrations.map
        (fun conc =>
          conc / 1000 * inputsNegSrc.totalFlow / inputsNegSrc.ch2oSourceConc) ∧
    (inputsNegSrc.ch2oSourceConc < 0 →
      (50 : ℚ) / 1000 * inputsNegSrc.totalFlow / inputsNegSrc.ch2oSourceConc < 0) ∧
    flowStandardJS 50 inputsNegSrc.totalFlow 0 = JSVal.posInf :=
  C7_unguarded_source_division inputsNegSrc calib0 50
    (by norm_num [inputsNegSrc]) (by norm_num [inputsNegSrc])
    (by norm_num [inputsNegSrc]) (by norm_num)

theorem mfcCWarning_ne_invalid (m a : ℚ) :
    mfcCWarning m a ≠ "Invalid input parameters" := by
  intro h
  have hlen := congrArg String.length h
  rw [mfcCWarning] at hlen
  simp only [String.length_append] at hlen
  have l1 : ("Max MFC C flow (" : String).length = 16 := rfl
  have l2 : (" SLPM) exceeds MFC A capacity (" : String).length = 31 := rfl
  have l3 : (" SLPM)" : String).length = 6 := rfl
  have l4 : ("Invalid input parameters" : String).length = 24 := rfl
  rw [l1, l2, l3, l4] at hlen
  omega

theorem invalidMsg_not_mem_capacityWarning (flows : List ℚ) (A : ℚ) :
    "Invalid input parameters" ∉ capacityWarning flows A := by
  rw [capacityWarning]
  cases mathMax flows with
  | none => simp
  | some m =>
      show "Invalid input parameters" ∉
        (if m > A then [mfcCWarning m A] else [])
      split_ifs with hc
      · simp only [List.mem_singleton]
        intro h
        exact mfcCWarning_ne_invalid m A h.symm
      · simp

theorem capacityWarning_length (flows : List ℚ) (A : ℚ) :
    (capacityWarning flows A).length ≤ 1 := by
  rw [capacityWarning]
  cases mathMax flows with
  | none => simp
  | some m =>
      show (if m > A then [mfcCWarning m A] else []).length ≤ 1
      split_ifs <;> simp

/-- C10: every result links isValid to warnings: an invalid result carries
exactly the single warning "Invalid input parameters", and a valid result
never contains that string and carries at most two warnings, the two
humidity conditions being mutually exclusive. -/
theorem C10_validity_warnings_link (inputs : InputParameters)
    (calibration : CalibrationConstants) :
    ((calculateMFCValues inputs calibration).isValid = false →
      (calculateMFCValues inputs calibration).warnings =
        ["Invalid input parameters"]) ∧
    ((calculateMFCValues inputs calibration).isValid = true →
      "Invalid input parameters" ∉
        (calculateMFCValues inputs calibration).warnings ∧
      (calculateMFCValues inputs calibration).warnings.length ≤ 2) := by
  by_cases hcond : inputs.totalFlow ≤ 0 ∨ inputs.targetHumidity < 0 ∨
    inputs.targetHumidity > 100
  · rw [calculateMFCValues_of_invalid inputs calibration hcond]
    exact ⟨fun _ => rfl, fun h => absurd h (by simp)⟩
  · push_neg at hcond
    obtain ⟨h1, h2, h3⟩ := hcond
    have hv := isValid_of_valid inputs calibration h1 h2 h3
    have hw := warnings_of_valid inputs calibration h1 h2 h3
    refine ⟨fun hfalse => absurd (hv.symm.trans hfalse) (by simp), fun _ => ?_⟩
    rw [hw]
    constructor
    · intro hmem
      rw [List.mem_append, List.mem_append] at hmem
      rcases hmem with (h | h) | h
      · by_cases hc : inputs.targetHumidity > 80
        · rw [if_pos hc] at h
          simp only [List.mem_singleton] at h
          exact absurd h (by decide)
        · rw [if_neg hc] at h
          exact absurd h (List.not_mem_nil _)
      · by_cases hc : inputs.targetHumidity < 10
        · rw [if_pos hc] at h
          simp only [List.mem_singleton] at h
          exact absurd h (by decide)
        · rw [if_neg hc] at h
          exact absurd h (List.not_mem_nil _)
      · exact absurd h (invalidMsg_not_mem_capacityWarning _ _)
    · rw [List.length_append, List.length_append]
      have ha : (if inputs.targetHumidity > 80 then
            ["Humidity >80% may cause condensation"] else []).length +
          (if inputs.targetHumidity < 10 then
            ["Humidity <10% may be difficult to achieve"] else []).length ≤ 1 := by
        by_cases hc : inputs.targetHumidity > 80
        · have hc2 : ¬ inputs.targetHumidity < 10 := by linarith
          rw [if_pos hc, if_neg hc2]
          simp
        · rw [if_neg hc]
          by_cases hc2 : inputs.targetHumidity < 10
          · rw [if_pos hc2]
            simp
          · rw [if_neg hc2]
            simp
      have hb := capacityWarning_length
        (((calculateMFCValues inputs calibration).mfcC).map MfcCEntry.flow)
        ((calculateMFCValues inputs calibration).mfcA)
      omega

theorem C10_validity_warnings_link_witness :
    ((calculateMFCValues inputsBad calib0).isValid = false →
      (calculateMFCValues inputsBad calib0).warnings =
        ["Invalid input parameters"]) ∧
    ((calculateMFCValues inputsBad calib0).isValid = true →
      "Invalid input parameters" ∉ (calculateMFCValues inputsBad calib0).warnings ∧
      (calculateMFCValues inputsBad calib0).warnings.length ≤ 2) :=
  C10_validity_warnings_link inputsBad calib0

theorem timelineConcRows_sum (a b : ℚ) (s : ℕ) (l : List MfcCEntry) :
    ∀ (t : ℕ) (row : TimelineRow), row ∈ (timelineConcRows a b s l t).1 →
      row.chanA + row.chanB + row.chanC = a + b := by
  induction l with
  | nil =>
      intro t row h
      simp [timelineConcRows] at h
  | cons e rest ih =>
      intro t row h
      simp only [timelineConcRows, List.mem_cons] at h
      rcases h with h | h | h
      · subst h
        simp
      · subst h
        simp only
        ring
      · exact ih (t + s) row h

theorem timelineRows_dropLast (timings : TimingParameters) (results : FlowResult) :
    (timelineRows timings results).dropLast =
      ⟨0, results.mfcA, results.mfcB, 0⟩ ::
        ((timelineConcRows results.mfcA results.mfcB
            (timings.exposureDuration * 60) results.mfcC
            (timings.baselineDuration * 60)).1 ++
          [⟨(timelineConcRows results.mfcA results.mfcB
              (timings.exposureDuration * 60) results.mfcC
              (timings.baselineDuration * 60)).2,
            results.mfcA, results.mfcB, 0⟩]) := by
  rw [timelineRows]
  have hsplit : (⟨0, results.mfcA, results.mfcB, 0⟩ ::
      ((timelineConcRows results.mfcA results.mfcB
          (timings.exposureDuration * 60) results.mfcC
          (timings.baselineDuration * 60)).1 ++
        [⟨(timelineConcRows results.mfcA results.mfcB
            (timings.exposureDuration * 60) results.mfcC
            (timings.baselineDuration * 60)).2, results.mfcA, results.mfcB, 0⟩,
         ⟨(timelineConcRows results.mfcA results.mfcB
            (timings.exposureDuration * 60) results.mfcC
            (timings.baselineDuration * 60)).2, 0, 0, 0⟩]) : List TimelineRow) =
      (⟨0, results.mfcA, results.mfcB, 0⟩ ::
        ((timelineConcRows results.mfcA results.mfcB
            (timings.exposureDuration * 60) results.mfcC
            (timings.baselineDuration * 60)).1 ++
          [⟨(timelineConcRows results.mfcA results.mfcB
              (timings.exposureDuration * 60) results.mfcC
              (timings.baselineDuration * 60)).2,
            results.mfcA, results.mfcB, 0⟩])) ++
        [⟨(timelineConcRows results.mfcA results.mfcB
            (timings.exposureDuration * 60) results.mfcC
            (timings.baselineDuration * 60)).2, 0, 0, 0⟩] := by
    simp
  rw [hsplit, List.dropLast_concat]

/-- C9: in the unformatted timeline every row except the shutdown row has
the same three-channel sum mfcA + mfcB: the exposure row commands
(mfcA − flow, mfcB, flow), which sums to mfcA + mfcB like the baseline rows. -/
theorem C9_total_flow_conserved (timings : TimingParameters)
    (results : FlowResult) (row : TimelineRow)
    (h : row ∈ (timelineRows timings results).dropLast) :
    row.chanA + row.chanB + row.chanC = results.mfcA + results.mfcB := by
  rw [timelineRows_dropLast] at h
  simp only [List.mem_cons, List.mem_append, List.mem_singleton,
    List.not_mem_nil, or_false] at h
  rcases h with h | h | h
  · subst h
    simp
  · exact timelineConcRows_sum results.mfcA results.mfcB
      (timings.exposureDuration * 60) results.mfcC
      (timings.baselineDuration * 60) row h
  · subst h
    simp

theorem C9_total_flow_conserved_witness :
    (⟨0, (calculateMFCValues inputs0 calib0).mfcA,
        (calculateMFCValues inputs0 calib0).mfcB, 0⟩ : TimelineRow).chanA +
      (⟨0, (calculateMFCValues inputs0 calib0).mfcA,
        (calculateMFCValues inputs0 calib0).mfcB, 0⟩ : TimelineRow).chanB +
      (⟨0, (calculateMFCValues inputs0 calib0).mfcA,
        (calculateMFCValues inputs0 calib0).mfcB, 0⟩ : TimelineRow).chanC =
    (calculateMFCValues inputs0 calib0).mfcA +
      (calculateMFCValues inputs0 calib0).mfcB :=
  C9_total_flow_conserved timings0 (calculateMFCValues inputs0 calib0)
    ⟨0, (calculateMFCValues inputs0 calib0).mfcA,
      (calculateMFCValues inputs0 calib0).mfcB, 0⟩
    (by rw [timelineRows_dropLast]; exact List.mem_cons_self _ _)

theorem generateCSV_of_valid (inputs : InputParameters)
    (timings : TimingParameters) (results : FlowResult) (nowIso : String)
    (hv : results.isValid = true) :
    generateCSV inputs timings results nowIso =
      csvHeaderText inputs nowIso ++
        csvLine 0 (toFixed 2 results.mfcA) (toFixed 2 results.mfcB) "0" ++
        (csvConcRows results.mfcA results.mfcB (timings.exposureDuration * 60)
          results.mfcC (timings.baselineDuration * 60)).1 ++
        csvLine (csvConcRows results.mfcA results.mfcB
            (timings.exposureDuration * 60) results.mfcC
            (timings.baselineDuration * 60)).2
          (toFixed 2 results.mfcA) (toFixed 2 results.mfcB) "0" ++
        csvLine (csvConcRows results.mfcA results.mfcB
            (timings.exposureDuration * 60) results.mfcC
            (timings.baselineDuration * 60)).2 "0" "0" "0" := by
  rw [generateCSV, hv]
  rfl

theorem csvConcRows_eq (a b : ℚ) (s : ℕ) (l : List MfcCEntry) :
    ∀ (base n : ℕ),
      csvConcRows a b s l (base + n * s) =
        (joinAll ((l.enumFrom n).flatMap fun p =>
          [csvLine (base + p.1 * s) (toFixed 2 a) (toFixed 2 b) "0",
           csvLine (base + p.1 * s) (toFixed 2 (a - p.2.flow)) (toFixed 2 b)
             (toFixed 9 p.2.flow)]),
         base + (n + l.length) * s) := by
  induction l with
  | nil =>
      intro base n
      simp [csvConcRows, List.enumFrom, joinAll]
  | cons e rest ih =>
      intro base n
      have ht : base + n * s + s = base + (n + 1) * s := by ring
      rw [csvConcRows, ht, ih base (n + 1)]
      simp only [List.enumFrom, List.flatMap_cons, joinAll_append, joinAll_cons,
        joinAll_nil, String.append_empty, Prod.mk.injEq, List.length_cons]
      constructor
      · simp [String.append_assoc]
      · ring

theorem flatMapPairLength (l : List (ℕ × MfcCEntry))
    (f g : ℕ × MfcCEntry → String) :
    (l.flatMap fun p => [f p, g p]).length = 2 * l.length := by
  induction l with
  | nil => simp
  | cons x xs ih =>
      simp only [List.flatMap_cons, List.length_append, List.length_cons,
        List.length_nil, ih]
      omega

/-- C5: for every valid FlowResult, the CSV after the metadata and column
header is the concatenation of exactly 2·N + 3 data rows: the time-0
baseline row; for the i-th mfcC entry a baseline row and an exposure row,
both at time baselineDuration·60 + i·exposureDuration·60, the exposure row
commanding (mfcA − flow, mfcB, flow) with the mfcC flow rendered to 9
decimal places and mfcA/mfcB to 2; then the final baseline row and the
all-zero shutdown row at the common final cursor, times being unformatted
integer seconds throughout. -/
theorem C5_csv_body_rows (inputs : InputParameters) (timings : TimingParameters)
    (results : FlowResult) (nowIso : String) (hv : results.isValid = true) :
    generateCSV inputs timings results nowIso =
      csvHeaderText inputs nowIso ++
        joinAll (specBodyRows results.mfcA results.mfcB timings.baselineDuration
          timings.exposureDuration results.mfcC) ∧
    (specBodyRows results.mfcA results.mfcB timings.baselineDuration
        timings.exposureDuration results.mfcC).length =
      2 * results.mfcC.length + 3 := by
  constructor
  · rw [generateCSV_of_valid inputs timings results nowIso hv]
    have h0 : timings.baselineDuration * 60 +
        0 * (timings.exposureDuration * 60) = timings.baselineDuration * 60 := by
      ring
    have hc := csvConcRows_eq results.mfcA results.mfcB
      (timings.exposureDuration * 60) results.mfcC
      (timings.baselineDuration * 60) 0
    rw [h0] at hc
    rw [hc]
    simp only [specBodyRows, joinAll_append, joinAll_cons, joinAll_nil,
      String.append_empty, Nat.zero_add, List.enum]
    simp only [String.append_assoc]
  · simp only [specBodyRows, List.length_append, flatMapPairLength,
      List.enum_length, List.length_cons, List.length_nil]
    omega

theorem C5_csv_body_rows_witness :
    generateCSV inputs0 timings0 (calculateMFCValues inputs0 calib0)
        "2026-01-01T00:00:00.000Z" =
      csvHeaderText inputs0 "2026-01-01T00:00:00.000Z" ++
        joinAll (specBodyRows (calculateMFCValues inputs0 calib0).mfcA
          (calculateMFCValues inputs0 calib0).mfcB timings0.baselineDuration
          timings0.exposureDuration (calculateMFCValues inputs0 calib0).mfcC) ∧
    (specBodyRows (calculateMFCValues inputs0 calib0).mfcA
        (calculateMFCValues inputs0 calib0).mfcB timings0.baselineDuration
        timings0.exposureDuration (calculateMFCValues inputs0 calib0).mfcC).length =
      2 * (calculateMFCValues inputs0 calib0).mfcC.length + 3 :=
  C5_csv_body_rows inputs0 timings0 (calculateMFCValues inputs0 calib0)
    "2026-01-01T00:00:00.000Z"
    (isValid_of_valid inputs0 calib0 (by norm_num [inputs0])
      (by norm_num [inputs0]) (by norm_num [inputs0]))

end MFC
